import Mathlib

/-!
Verification of the shared-token-cache credential resolution subsystem of
`sdk/identity/azure-identity/azure/identity/_credentials/shared_cache.py`.

The central function embedded here is `_SharedTokenCacheCredential.get_token`
(lines 109-147 of shared_cache.py).  Helper methods that live in the base
class `SharedTokenCacheBase` (module `_internal/shared_token_cache.py`, not
part of this source tree) are modelled from the spec, each marked with a
doc comment starting `Modelled from the spec:`.

Effects that the Python code performs against external collaborators
(loading a cache from the persistent store, calling the token-issuing
collaborator `obtain_token_by_refresh_token`) are made observable as an
explicit effect trace, so that "no network access" / "no cache access"
claims become statements about that trace.
-/

/-- Identity record held in a token cache (spec §3 Data model: `username`,
`tenant_id`, `home_account_id`). -/
structure Account where
  username : Option String
  tenant_id : Option String
  home_account_id : String
deriving DecidableEq, Repr

/-- Cached access token: value, expiry timestamp, associated scopes and the
owning account (spec §3 CachedToken).  MSAL-style cache entries carry no
claims attribute, and the call site in shared_cache.py line 136 passes no
claims to the lookup, so the spec's "associated claims (if any)" condition
is vacuous here. -/
structure AccessTokenEntry where
  token : String
  expires_on : Nat
  scopes : List String
  home_account_id : String
deriving DecidableEq, Repr

/-- Cached refresh token: opaque value plus the owning account (spec §3). -/
structure RefreshTokenEntry where
  secret : String
  home_account_id : String
deriving DecidableEq, Repr

/-- In-memory token cache: accounts together with their cached tokens
(spec §3 TokenCache). -/
structure TokenCache where
  accounts : List Account
  access_tokens : List AccessTokenEntry
  refresh_tokens : List RefreshTokenEntry
deriving DecidableEq, Repr

/-- Result value returned to the caller (azure.core.credentials.AccessToken:
a token string and an expiry). -/
structure AccessToken where
  token : String
  expires_on : Nat
deriving DecidableEq, Repr

/-- Failure taxonomy of `get_token` (spec §7): `invalidArgument` embeds the
Python `ValueError` of line 118, `credentialUnavailable` embeds
`CredentialUnavailableError`, and `exchangeFailed` carries an error of the
token-issuing collaborator verbatim (in Python the exception simply
propagates; in this total embedding it is carried unchanged inside the
`exchangeFailed` injection of the result sum type). -/
inductive GetTokenError where
  | invalidArgument (msg : String)
  | credentialUnavailable (msg : String)
  | exchangeFailed (err : String)
deriving DecidableEq, Repr

/-- Observable interactions with external collaborators: a load of the
persistent cache store (`_initialize_cache`), and a token-exchange call
(`obtain_token_by_refresh_token`) recording exactly the arguments passed. -/
inductive Effect where
  | cacheLoad (is_cae : Bool)
  | exchange (scopes : List String) (refresh_token : String)
      (claims : Option String) (tenant_id : Option String)
deriving DecidableEq, Repr

/-- True exactly on token-exchange (network) effects. -/
def is_exchange_effect : Effect → Bool
  | Effect.exchange _ _ _ _ => true
  | _ => false

/-- External collaborators (spec §6): the persistent cache store
`load(is_cae) -> TokenCache | absent`, the token-issuing collaborator
`exchange(scopes, refresh_token, claims, tenant_hint)`, and the current
time used by the access-token expiry check. -/
structure Env where
  now : Nat
  store : Bool → Option TokenCache
  exchange : List String → String → Option String → Option String →
      Except String AccessToken

/-- Mutable state of a `_SharedTokenCacheCredential` instance: the selector
configuration (`self._username`, `self._tenant_id`, spec §6, immutable),
whether the AAD client has been built (`self._client_initialized`), and the
two lazily loaded cache slots `self._cache` / `self._cae_cache`. -/
structure CredState where
  username : Option String
  tenant_id : Option String
  client_ready : Bool
  cache : Option TokenCache
  cae_cache : Option TokenCache
deriving DecidableEq, Repr

/-- Embeds `_initialize_client` (base class): builds the AAD client and
marks it built.  Building the client performs no cache or network access;
only the `client_ready` flag changes. -/
def init_client (st : CredState) : CredState :=
  { st with client_ready := true }

/-- Embeds line 124 of shared_cache.py:
`token_cache = self._cae_cache if is_cae else self._cache`. -/
def select_cache (st : CredState) (is_cae : Bool) : Option TokenCache :=
  if is_cae then st.cae_cache else st.cache

/-- Stores a freshly loaded cache into the slot selected by the CAE flag. -/
def set_cache (st : CredState) (is_cae : Bool) (c : Option TokenCache) :
    CredState :=
  if is_cae then { st with cae_cache := c } else { st with cache := c }

/-- Modelled from the spec: `_initialize_cache` of the base class
`SharedTokenCacheBase` is not in this source tree.  Spec §4.1 step 2 and
§6: attempt to load the selected cache from the external persistent store
(read-only); the result, possibly absent, is remembered in the selected
slot (spec §9: load-once-then-reuse). -/
def init_cache (env : Env) (st : CredState) (is_cae : Bool) :
    Option TokenCache × CredState :=
  (env.store is_cae, set_cache st is_cae (env.store is_cae))

/-- Modelled from the spec: account selector matching used by
`_get_account` (base class, not in this source tree).  Spec §4.1 step 3:
an account matches when it agrees with each configured username/tenant
selector; an unset selector matches every account. -/
def account_matches (username tenant : Option String) (a : Account) : Bool :=
  (match username with
   | none => true
   | some u => a.username == some u) &&
  (match tenant with
   | none => true
   | some t => a.tenant_id == some t)

/-- Modelled from the spec: `_get_account` of the base class is not in
this source tree.  Spec §4.1 step 3: search the loaded cache for an
account matching the configured username/tenant selectors; zero matches
and ambiguous matches fail with `CredentialUnavailable`. -/
def get_account (tc : TokenCache) (username tenant : Option String) :
    Except GetTokenError Account :=
  match tc.accounts.filter (account_matches username tenant) with
  | [] => Except.error (GetTokenError.credentialUnavailable "no account found")
  | [a] => Except.ok a
  | _ => Except.error (GetTokenError.credentialUnavailable
      "multiple accounts found; specify username/tenant")

/-- Modelled from the spec: the "short clock-skew safety margin" of
spec §4.1 step 4 (seconds). -/
def CLOCK_SKEW_MARGIN : Nat := 300

/-- Modelled from the spec: `_get_cached_access_token` of the base class
is not in this source tree.  Spec §4.1 step 4: search the account's cached
access tokens for one whose scope set is a superset of the requested
scopes and whose expiry is still in the future with a clock-skew margin.
The call site (line 136) passes only scopes and account, so no requested
claims reach this lookup. -/
def get_cached_access_token (now : Nat) (scopes : List String)
    (account : Account) (tc : TokenCache) : Option AccessToken :=
  (tc.access_tokens.find? (fun t =>
      t.home_account_id == account.home_account_id &&
      scopes.all (fun s => t.scopes.contains s) &&
      decide (now + CLOCK_SKEW_MARGIN < t.expires_on))).map
    (fun t => { token := t.token, expires_on := t.expires_on })

/-- Modelled from the spec: `_get_refresh_tokens` of the base class is not
in this source tree.  Spec §4.1 step 5: the account's cached refresh
tokens, from the selected cache only. -/
def get_refresh_tokens (account : Account) (tc : TokenCache) :
    List RefreshTokenEntry :=
  tc.refresh_tokens.filter
    (fun rt => rt.home_account_id == account.home_account_id)

/-- Modelled from the spec: the `NO_TOKEN` message template of
`_internal/shared_token_cache.py` is not in this source tree.  Spec §4.1
step 6: "no usable refresh token for account <identity>", formatted with
`account.get("username")` at line 147. -/
def NO_TOKEN (username : String) : String :=
  "no usable refresh token for account " ++ username

/-- Embeds the result of `self._client.obtain_token_by_refresh_token(...)`
at lines 142-144: a successful exchange is returned as the call's result;
a collaborator error propagates, carried verbatim. -/
def exchange_result (r : Except String AccessToken) :
    Except GetTokenError AccessToken :=
  match r with
  | Except.ok t => Except.ok t
  | Except.error e => Except.error (GetTokenError.exchangeFailed e)

/-- Embeds lines 134-147 of `_SharedTokenCacheCredential.get_token`, the
part that runs once a (truthy) token cache is in hand: account resolution,
cached-access-token lookup, then the refresh-token loop whose body
unconditionally returns, so only the first refresh token is ever tried.
Returns the call's result together with the trace of exchange effects. -/
def resolve_with_cache (env : Env) (username tenant : Option String)
    (tc : TokenCache) (scopes : List String)
    (claims tenant_id : Option String) :
    Except GetTokenError AccessToken × List Effect :=
  match get_account tc username tenant with
  | Except.error e => (Except.error e, [])
  | Except.ok account =>
    match get_cached_access_token env.now scopes account tc with
    | some token => (Except.ok token, [])
    | none =>
      match get_refresh_tokens account tc with
      | [] => (Except.error (GetTokenError.credentialUnavailable
          (NO_TOKEN (account.username.getD "None"))), [])
      | rt :: _ =>
        (exchange_result (env.exchange scopes rt.secret claims tenant_id),
         [Effect.exchange scopes rt.secret claims tenant_id])

/-- Embeds `_SharedTokenCacheCredential.get_token` (shared_cache.py lines
109-147).  Returns the call's result, the credential state after the call,
and the trace of effects performed against external collaborators, in
order. -/
def get_token (env : Env) (st : CredState) (scopes : List String)
    (claims tenant_id : Option String) (enable_cae : Bool) :
    Except GetTokenError AccessToken × CredState × List Effect :=
  if scopes.isEmpty then
    (Except.error (GetTokenError.invalidArgument
        "get_token requires at least one scope"), st, [])
  else
    let st1 := if st.client_ready then st else init_client st
    let is_cae := enable_cae
    match select_cache st1 is_cae with
    | some tc =>
        ((resolve_with_cache env st1.username st1.tenant_id tc scopes
            claims tenant_id).1,
         st1,
         (resolve_with_cache env st1.username st1.tenant_id tc scopes
            claims tenant_id).2)
    | none =>
        match init_cache env st1 is_cae with
        | (none, st2) =>
            (Except.error (GetTokenError.credentialUnavailable
                "Shared token cache unavailable"),
             st2, [Effect.cacheLoad is_cae])
        | (some tc, st2) =>
            ((resolve_with_cache env st2.username st2.tenant_id tc scopes
                claims tenant_id).1,
             st2,
             Effect.cacheLoad is_cae ::
               (resolve_with_cache env st2.username st2.tenant_id tc scopes
                  claims tenant_id).2)

/-- Embeds the public `SharedTokenCacheCredential.get_token` wrapper
(shared_cache.py lines 54-85, no authentication record configured): it
forwards scopes, claims, tenant_id and enable_cae unchanged to the internal
credential's `get_token` (line 85). -/
def public_get_token (env : Env) (st : CredState) (scopes : List String)
    (claims tenant_id : Option String) (enable_cae : Bool) :
    Except GetTokenError AccessToken × CredState × List Effect :=
  get_token env st scopes claims tenant_id enable_cae

/-- Specification-side helper: the cache value the call ends up consulting,
namely the already-loaded slot selected by the CAE flag, or the store's
answer when that slot is empty. -/
def loaded_cache (env : Env) (st : CredState) (is_cae : Bool) :
    Option TokenCache :=
  match select_cache st is_cae with
  | some tc => some tc
  | none => env.store is_cae

/-! ## Basic projection lemmas -/

theorem init_client_username (st : CredState) :
    (init_client st).username = st.username := rfl

theorem init_client_tenant (st : CredState) :
    (init_client st).tenant_id = st.tenant_id := rfl

theorem init_client_cache (st : CredState) :
    (init_client st).cache = st.cache := rfl

theorem init_client_cae_cache (st : CredState) :
    (init_client st).cae_cache = st.cae_cache := rfl

theorem select_cache_init_client (st : CredState) (b : Bool) :
    select_cache (init_client st) b = select_cache st b := by
  cases b <;> rfl

theorem set_cache_username (st : CredState) (b : Bool) (c : Option TokenCache) :
    (set_cache st b c).username = st.username := by
  cases b <;> rfl

theorem set_cache_tenant (st : CredState) (b : Bool) (c : Option TokenCache) :
    (set_cache st b c).tenant_id = st.tenant_id := by
  cases b <;> rfl

/-- Characterization of `get_token` on a non-empty scope list: the result is
determined by the consulted cache (`loaded_cache`), the state changes only
by client initialization and by storing the load's result when the selected
slot was empty, and the effect trace is a possible cache load followed by
the effects of `resolve_with_cache`. -/
theorem get_token_eq (env : Env) (st : CredState) (scopes : List String)
    (claims tid : Option String) (cae : Bool) (h : scopes.isEmpty = false) :
    get_token env st scopes claims tid cae =
      ((match loaded_cache env st cae with
        | none => Except.error (GetTokenError.credentialUnavailable
            "Shared token cache unavailable")
        | some tc =>
            (resolve_with_cache env st.username st.tenant_id tc scopes
              claims tid).1),
       (match select_cache st cae with
        | some _ => if st.client_ready then st else init_client st
        | none => set_cache (if st.client_ready then st else init_client st)
            cae (env.store cae)),
       (match select_cache st cae with
        | some _ => ([] : List Effect)
        | none => [Effect.cacheLoad cae]) ++
       (match loaded_cache env st cae with
        | none => []
        | some tc =>
            (resolve_with_cache env st.username st.tenant_id tc scopes
              claims tid).2)) := by
  unfold get_token loaded_cache init_cache
  cases hcr : st.client_ready <;>
    cases hsel : select_cache st cae <;>
      cases hst : env.store cae <;>
        simp [h, select_cache_init_client, hsel, hst, init_client_username,
          init_client_tenant, set_cache_username, set_cache_tenant]

/-- Effect trace of `resolve_with_cache`: it is empty, or it is exactly one
exchange call carrying the requested scopes, claims and tenant_id and the
secret of some refresh token. -/
theorem resolve_with_cache_effects (env : Env) (u t : Option String)
    (tc : TokenCache) (scopes : List String) (claims tid : Option String) :
    (resolve_with_cache env u t tc scopes claims tid).2 = [] ∨
    ∃ rt : RefreshTokenEntry,
      (resolve_with_cache env u t tc scopes claims tid).2 =
        [Effect.exchange scopes rt.secret claims tid] := by
  unfold resolve_with_cache
  cases hga : get_account tc u t with
  | error e => simp [hga]
  | ok a =>
    cases hat : get_cached_access_token env.now scopes a tc with
    | some tok => simp [hga, hat]
    | none =>
      cases hrt : get_refresh_tokens a tc with
      | nil => simp [hga, hat, hrt]
      | cons rt rest => exact Or.inr ⟨rt, by simp [hga, hat, hrt]⟩

/-! ## Sample data used by the witnesses -/

/-- Sample account "alice". -/
def alice : Account :=
  { username := some "alice@example.com", tenant_id := some "tenant-a",
    home_account_id := "home-alice" }

/-- Sample account "bob". -/
def bob : Account :=
  { username := some "bob@example.com", tenant_id := some "tenant-b",
    home_account_id := "home-bob" }

/-- An unexpired cached access token for alice covering scope
"scope/.default". -/
def alice_access : AccessTokenEntry :=
  { token := "cached-access", expires_on := 10000,
    scopes := ["scope/.default", "extra-scope"],
    home_account_id := "home-alice" }

/-- A cached refresh token for alice. -/
def alice_refresh : RefreshTokenEntry :=
  { secret := "refresh-1", home_account_id := "home-alice" }

/-- Sample cache holding alice with one access and one refresh token. -/
def sample_cache : TokenCache :=
  { accounts := [alice], access_tokens := [alice_access],
    refresh_tokens := [alice_refresh] }

/-- Sample environment: the store always answers with `sample_cache`, the
exchange collaborator always succeeds. -/
def sample_env : Env :=
  { now := 1000, store := fun _ => some sample_cache,
    exchange := fun _ _ _ _ =>
      Except.ok { token := "fresh-token", expires_on := 9999 } }

/-- Sample credential state: no selectors, standard cache already loaded. -/
def sample_state : CredState :=
  { username := none, tenant_id := none, client_ready := false,
    cache := some sample_cache, cae_cache := none }

/-! ## Claims -/

/-- C1: a call to `get_token` with an empty scope set fails with the
InvalidArgument error (the Python `ValueError` of line 118) immediately:
the returned state equals the input state (no client initialization, no
cache selection, no cache load) and the effect trace is empty (no cache
access and no network access), for every environment, state, claims,
tenant_id and CAE flag. -/
theorem empty_scopes_fail_fast (env : Env) (st : CredState)
    (claims tid : Option String) (cae : Bool) (scopes : List String)
    (h : scopes = []) :
    get_token env st scopes claims tid cae =
      (Except.error (GetTokenError.invalidArgument
          "get_token requires at least one scope"), st, []) := by
  subst h; rfl

/-- Witness for C1 at a concrete input. -/
theorem empty_scopes_fail_fast_witness :
    get_token sample_env sample_state [] none none false =
      (Except.error (GetTokenError.invalidArgument
          "get_token requires at least one scope"), sample_state, []) :=
  empty_scopes_fail_fast sample_env sample_state none none false [] rfl

/-- C2: when the consulted cache resolves to exactly one account and the
account has a cached access token matching the request (scope superset and
unexpired with the clock-skew margin, per `get_cached_access_token`),
`get_token` returns that cached token and the effect trace contains no
exchange (network) call. -/
theorem cached_token_returned_without_exchange (env : Env) (st : CredState)
    (scopes : List String) (claims tid : Option String) (cae : Bool)
    (tc : TokenCache) (a : Account) (tok : AccessToken)
    (hs : scopes.isEmpty = false)
    (hc : loaded_cache env st cae = some tc)
    (ha : tc.accounts.filter (account_matches st.username st.tenant_id) = [a])
    (ht : get_cached_access_token env.now scopes a tc = some tok) :
    (get_token env st scopes claims tid cae).1 = Except.ok tok ∧
    (get_token env st scopes claims tid cae).2.2.filter
      is_exchange_effect = [] := by
  have hr : resolve_with_cache env st.username st.tenant_id tc scopes
      claims tid = (Except.ok tok, []) := by
    simp [resolve_with_cache, get_account, ha, ht]
  rw [get_token_eq env st scopes claims tid cae hs]
  cases hsel : select_cache st cae <;>
    simp [hc, hr, is_exchange_effect]

/-- Witness for C2 at a concrete input. -/
theorem cached_token_returned_without_exchange_witness :
    (get_token sample_env sample_state ["scope/.default"] none none
        false).1 =
      Except.ok { token := "cached-access", expires_on := 10000 } ∧
    (get_token sample_env sample_state ["scope/.default"] none none
        false).2.2.filter is_exchange_effect = [] :=
  cached_token_returned_without_exchange sample_env sample_state
    ["scope/.default"] none none false sample_cache alice
    { token := "cached-access", expires_on := 10000 }
    rfl rfl (by decide) (by decide)

/-- Equation for `get_token` on an empty scope list. -/
theorem get_token_empty (env : Env) (st : CredState) (scopes : List String)
    (claims tid : Option String) (cae : Bool) (h : scopes.isEmpty = true) :
    get_token env st scopes claims tid cae =
      (Except.error (GetTokenError.invalidArgument
          "get_token requires at least one scope"), st, []) := by
  unfold get_token; simp [h]

/-- Equation for `resolve_with_cache` when account resolution fails. -/
theorem resolve_with_cache_account_error (env : Env) (u t : Option String)
    (tc : TokenCache) (scopes : List String) (claims tid : Option String)
    (e : GetTokenError) (hga : get_account tc u t = Except.error e) :
    resolve_with_cache env u t tc scopes claims tid =
      (Except.error e, []) := by
  simp [resolve_with_cache, hga]

/-- Equation for `resolve_with_cache` on the refresh-token fallback path:
no valid cached access token, at least one refresh token. -/
theorem resolve_with_cache_fallback (env : Env) (u t : Option String)
    (tc : TokenCache) (scopes : List String) (claims tid : Option String)
    (a : Account) (rt : RefreshTokenEntry) (rest : List RefreshTokenEntry)
    (ha : tc.accounts.filter (account_matches u t) = [a])
    (hat : get_cached_access_token env.now scopes a tc = none)
    (hrt : get_refresh_tokens a tc = rt :: rest) :
    resolve_with_cache env u t tc scopes claims tid =
      (exchange_result (env.exchange scopes rt.secret claims tid),
       [Effect.exchange scopes rt.secret claims tid]) := by
  simp [resolve_with_cache, get_account, ha, hat, hrt]

/-- Equation for `resolve_with_cache` when the account has neither a valid
access token nor any refresh token. -/
theorem resolve_with_cache_exhausted (env : Env) (u t : Option String)
    (tc : TokenCache) (scopes : List String) (claims tid : Option String)
    (a : Account)
    (ha : tc.accounts.filter (account_matches u t) = [a])
    (hat : get_cached_access_token env.now scopes a tc = none)
    (hrt : get_refresh_tokens a tc = []) :
    resolve_with_cache env u t tc scopes claims tid =
      (Except.error (GetTokenError.credentialUnavailable
        (NO_TOKEN (a.username.getD "None"))), []) := by
  simp [resolve_with_cache, get_account, ha, hat, hrt]

/-- C3: at most one exchange call is ever performed per `get_token`
invocation; and on the refresh-token fallback path, exactly one exchange is
performed, with the first refresh token yielded for the account, and the
call's result is that single exchange's outcome — regardless of whether
the exchange succeeds or fails, no further refresh token is attempted. -/
theorem refresh_fallback_single_exchange (env : Env) (st : CredState)
    (scopes : List String) (claims tid : Option String) (cae : Bool) :
    ((get_token env st scopes claims tid cae).2.2.filter
        is_exchange_effect).length ≤ 1 ∧
    (∀ (tc : TokenCache) (a : Account) (rt : RefreshTokenEntry)
        (rest : List RefreshTokenEntry),
      scopes.isEmpty = false →
      loaded_cache env st cae = some tc →
      tc.accounts.filter (account_matches st.username st.tenant_id) = [a] →
      get_cached_access_token env.now scopes a tc = none →
      get_refresh_tokens a tc = rt :: rest →
      (get_token env st scopes claims tid cae).2.2.filter
          is_exchange_effect =
        [Effect.exchange scopes rt.secret claims tid] ∧
      (get_token env st scopes claims tid cae).1 =
        exchange_result (env.exchange scopes rt.secret claims tid)) := by
  constructor
  · cases hscope : scopes.isEmpty with
    | true =>
        rw [get_token_empty env st scopes claims tid cae hscope]; simp
    | false =>
        rw [get_token_eq env st scopes claims tid cae hscope]
        cases hlc : loaded_cache env st cae with
        | none => cases hsel : select_cache st cae <;>
            simp [hsel, is_exchange_effect]
        | some tc =>
            rcases resolve_with_cache_effects env st.username st.tenant_id
                tc scopes claims tid with hre | ⟨rt, hre⟩ <;>
              cases hsel : select_cache st cae <;>
                simp [hsel, hre, is_exchange_effect]
  · intro tc a rt rest hscope hlc ha hat hrt
    have hre := resolve_with_cache_fallback env st.username st.tenant_id
      tc scopes claims tid a rt rest ha hat hrt
    rw [get_token_eq env st scopes claims tid cae hscope]
    cases hsel : select_cache st cae <;>
      simp [hlc, hre, is_exchange_effect]

/-- C4: when the selected cache slot is empty and the persistent store
yields no cache, `get_token` fails with `CredentialUnavailable` ("Shared
token cache unavailable", line 132); the only effect is the cache-load
attempt — in particular no exchange (network) call is performed. -/
theorem cache_load_failure_unavailable (env : Env) (st : CredState)
    (scopes : List String) (claims tid : Option String) (cae : Bool)
    (hs : scopes.isEmpty = false)
    (hsel : select_cache st cae = none)
    (hstore : env.store cae = none) :
    (get_token env st scopes claims tid cae).1 =
      Except.error (GetTokenError.credentialUnavailable
        "Shared token cache unavailable") ∧
    (get_token env st scopes claims tid cae).2.2 = [Effect.cacheLoad cae] ∧
    (get_token env st scopes claims tid cae).2.2.filter
      is_exchange_effect = [] := by
  rw [get_token_eq env st scopes claims tid cae hs]
  simp [loaded_cache, hsel, hstore, is_exchange_effect]

/-- An expired cached access token for alice (valid scope set, but past
expiry once the clock-skew margin is applied at `now = 1000`). -/
def stale_access : AccessTokenEntry :=
  { token := "stale-access", expires_on := 1100,
    scopes := ["scope/.default"], home_account_id := "home-alice" }

/-- Cache where alice has only an expired access token plus one refresh
token, forcing the refresh-token fallback. -/
def fallback_cache : TokenCache :=
  { accounts := [alice], access_tokens := [stale_access],
    refresh_tokens := [alice_refresh] }

/-- Credential state whose standard slot holds `fallback_cache`. -/
def fallback_state : CredState :=
  { username := none, tenant_id := none, client_ready := true,
    cache := some fallback_cache, cae_cache := none }

/-- Witness for C3 at a concrete input: exactly one exchange with the
first (only) refresh token, and the call returns the exchange's outcome. -/
theorem refresh_fallback_single_exchange_witness :
    ((get_token sample_env fallback_state ["scope/.default"] none none
        false).2.2.filter is_exchange_effect).length ≤ 1 ∧
    (get_token sample_env fallback_state ["scope/.default"] none none
        false).2.2.filter is_exchange_effect =
      [Effect.exchange ["scope/.default"] "refresh-1" none none] ∧
    (get_token sample_env fallback_state ["scope/.default"] none none
        false).1 =
      exchange_result (sample_env.exchange ["scope/.default"] "refresh-1"
        none none) :=
  ⟨(refresh_fallback_single_exchange sample_env fallback_state
      ["scope/.default"] none none false).1,
   ((refresh_fallback_single_exchange sample_env fallback_state
      ["scope/.default"] none none false).2 fallback_cache alice
      alice_refresh [] rfl rfl (by decide) (by decide) (by decide)).1,
   ((refresh_fallback_single_exchange sample_env fallback_state
      ["scope/.default"] none none false).2 fallback_cache alice
      alice_refresh [] rfl rfl (by decide) (by decide) (by decide)).2⟩

/-- Environment whose persistent store is empty and whose exchange
collaborator is never supposed to be reached. -/
def empty_store_env : Env :=
  { now := 1000, store := fun _ => none,
    exchange := fun _ _ _ _ => Except.error "unreachable" }

/-- Cold credential state: nothing loaded, no selectors. -/
def cold_state : CredState :=
  { username := none, tenant_id := none, client_ready := false,
    cache := none, cae_cache := none }

/-- Witness for C4 at a concrete input. -/
theorem cache_load_failure_unavailable_witness :
    (get_token empty_store_env cold_state ["scope/.default"] none none
        false).1 =
      Except.error (GetTokenError.credentialUnavailable
        "Shared token cache unavailable") ∧
    (get_token empty_store_env cold_state ["scope/.default"] none none
        false).2.2 = [Effect.cacheLoad false] ∧
    (get_token empty_store_env cold_state ["scope/.default"] none none
        false).2.2.filter is_exchange_effect = [] :=
  cache_load_failure_unavailable empty_store_env cold_state
    ["scope/.default"] none none false rfl rfl rfl

/-- C6: account resolution gates the rest of the call: zero accounts
matching the configured username/tenant selectors fail with
`CredentialUnavailable` ("no account found"); two or more matches fail with
`CredentialUnavailable` ("multiple accounts found; specify
username/tenant"); exactly one match makes account resolution succeed with
that account, so resolution proceeds to token lookup. -/
theorem account_resolution_gate (env : Env) (st : CredState)
    (scopes : List String) (claims tid : Option String) (cae : Bool)
    (tc : TokenCache)
    (hs : scopes.isEmpty = false)
    (hc : loaded_cache env st cae = some tc) :
    (tc.accounts.filter (account_matches st.username st.tenant_id) = [] →
      (get_token env st scopes claims tid cae).1 =
        Except.error (GetTokenError.credentialUnavailable
          "no account found")) ∧
    (∀ (a b : Account) (rest : List Account),
      tc.accounts.filter (account_matches st.username st.tenant_id) =
          a :: b :: rest →
      (get_token env st scopes claims tid cae).1 =
        Except.error (GetTokenError.credentialUnavailable
          "multiple accounts found; specify username/tenant")) ∧
    (∀ a : Account,
      tc.accounts.filter (account_matches st.username st.tenant_id) = [a] →
      get_account tc st.username st.tenant_id = Except.ok a) := by
  refine ⟨?_, ?_, ?_⟩
  · intro hf
    have hga : get_account tc st.username st.tenant_id =
        Except.error (GetTokenError.credentialUnavailable
          "no account found") := by
      simp [get_account, hf]
    have hre := resolve_with_cache_account_error env st.username
      st.tenant_id tc scopes claims tid _ hga
    rw [get_token_eq env st scopes claims tid cae hs]
    simp [hc, hre]
  · intro a b rest hf
    have hga : get_account tc st.username st.tenant_id =
        Except.error (GetTokenError.credentialUnavailable
          "multiple accounts found; specify username/tenant") := by
      simp [get_account, hf]
    have hre := resolve_with_cache_account_error env st.username
      st.tenant_id tc scopes claims tid _ hga
    rw [get_token_eq env st scopes claims tid cae hs]
    simp [hc, hre]
  · intro a hf
    simp [get_account, hf]

/-- Credential state whose username selector matches no cached account. -/
def carol_state : CredState :=
  { username := some "carol@example.com", tenant_id := none,
    client_ready := true, cache := some sample_cache, cae_cache := none }

/-- Cache holding two distinct accounts. -/
def two_cache : TokenCache :=
  { accounts := [alice, bob], access_tokens := [alice_access],
    refresh_tokens := [alice_refresh] }

/-- Credential state with no selectors over a two-account cache. -/
def two_state : CredState :=
  { username := none, tenant_id := none, client_ready := true,
    cache := some two_cache, cae_cache := none }

/-- Witness for C6 at concrete inputs: zero matches, two matches, and
exactly one match. -/
theorem account_resolution_gate_witness :
    (get_token sample_env carol_state ["scope/.default"] none none
        false).1 =
      Except.error (GetTokenError.credentialUnavailable
        "no account found") ∧
    (get_token sample_env two_state ["scope/.default"] none none false).1 =
      Except.error (GetTokenError.credentialUnavailable
        "multiple accounts found; specify username/tenant") ∧
    get_account sample_cache none none = Except.ok alice :=
  ⟨(account_resolution_gate sample_env carol_state ["scope/.default"] none
      none false sample_cache rfl rfl).1 (by decide),
   (account_resolution_gate sample_env two_state ["scope/.default"] none
      none false two_cache rfl rfl).2.1 alice bob [] (by decide),
   (account_resolution_gate sample_env sample_state ["scope/.default"] none
      none false sample_cache rfl rfl).2.2 alice (by decide)⟩

/-- C7: when the resolved account has no valid cached access token and no
cached refresh tokens, `get_token` fails with `CredentialUnavailable`
carrying the `NO_TOKEN` message built from the account's username
(line 147), and no exchange (network) call is performed. -/
theorem no_refresh_token_unavailable (env : Env) (st : CredState)
    (scopes : List String) (claims tid : Option String) (cae : Bool)
    (tc : TokenCache) (a : Account)
    (hs : scopes.isEmpty = false)
    (hc : loaded_cache env st cae = some tc)
    (ha : tc.accounts.filter (account_matches st.username st.tenant_id) = [a])
    (hat : get_cached_access_token env.now scopes a tc = none)
    (hrt : get_refresh_tokens a tc = []) :
    (get_token env st scopes claims tid cae).1 =
      Except.error (GetTokenError.credentialUnavailable
        (NO_TOKEN (a.username.getD "None"))) ∧
    NO_TOKEN (a.username.getD "None") =
      "no usable refresh token for account " ++ a.username.getD "None" ∧
    (get_token env st scopes claims tid cae).2.2.filter
      is_exchange_effect = [] := by
  have hre := resolve_with_cache_exhausted env st.username st.tenant_id tc
    scopes claims tid a ha hat hrt
  rw [get_token_eq env st scopes claims tid cae hs]
  refine ⟨?_, rfl, ?_⟩ <;>
    cases hsel : select_cache st cae <;>
      simp [hc, hre, is_exchange_effect]

/-- Cache where alice exists but holds no tokens at all. -/
def bare_cache : TokenCache :=
  { accounts := [alice], access_tokens := [], refresh_tokens := [] }

/-- Credential state whose standard slot holds `bare_cache`. -/
def bare_state : CredState :=
  { username := none, tenant_id := none, client_ready := true,
    cache := some bare_cache, cae_cache := none }

/-- Witness for C7 at a concrete input. -/
theorem no_refresh_token_unavailable_witness :
    (get_token sample_env bare_state ["scope/.default"] none none
        false).1 =
      Except.error (GetTokenError.credentialUnavailable
        (NO_TOKEN (alice.username.getD "None"))) ∧
    NO_TOKEN (alice.username.getD "None") =
      "no usable refresh token for account " ++ alice.username.getD "None" ∧
    (get_token sample_env bare_state ["scope/.default"] none none
        false).2.2.filter is_exchange_effect = [] :=
  no_refresh_token_unavailable sample_env bare_state ["scope/.default"]
    none none false bare_cache alice rfl rfl (by decide) (by decide)
    (by decide)

/-- C8: when the token-issuing collaborator rejects the exchange, the
collaborator's error is the call's outcome, carried verbatim inside the
`exchangeFailed` injection (in Python the exception propagates unmodified),
and the trace shows exactly one exchange attempt — the exchange is not
retried with this or any other refresh token. -/
theorem exchange_error_propagates (env : Env) (st : CredState)
    (scopes : List String) (claims tid : Option String) (cae : Bool)
    (tc : TokenCache) (a : Account) (rt : RefreshTokenEntry)
    (rest : List RefreshTokenEntry) (e : String)
    (hs : scopes.isEmpty = false)
    (hc : loaded_cache env st cae = some tc)
    (ha : tc.accounts.filter (account_matches st.username st.tenant_id) = [a])
    (hat : get_cached_access_token env.now scopes a tc = none)
    (hrt : get_refresh_tokens a tc = rt :: rest)
    (hx : env.exchange scopes rt.secret claims tid = Except.error e) :
    (get_token env st scopes claims tid cae).1 =
      Except.error (GetTokenError.exchangeFailed e) ∧
    (get_token env st scopes claims tid cae).2.2.filter
      is_exchange_effect = [Effect.exchange scopes rt.secret claims tid] := by
  have hre := resolve_with_cache_fallback env st.username st.tenant_id tc
    scopes claims tid a rt rest ha hat hrt
  rw [get_token_eq env st scopes claims tid cae hs]
  cases hsel : select_cache st cae <;>
    simp [hc, hre, hx, exchange_result, is_exchange_effect]

/-- Environment whose exchange collaborator always rejects. -/
def revoked_env : Env :=
  { now := 1000, store := fun _ => none,
    exchange := fun _ _ _ _ =>
      Except.error "AADSTS70008 refresh token revoked" }

/-- Witness for C8 at a concrete input. -/
theorem exchange_error_propagates_witness :
    (get_token revoked_env fallback_state ["scope/.default"] none none
        false).1 =
      Except.error (GetTokenError.exchangeFailed
        "AADSTS70008 refresh token revoked") ∧
    (get_token revoked_env fallback_state ["scope/.default"] none none
        false).2.2.filter is_exchange_effect =
      [Effect.exchange ["scope/.default"] "refresh-1" none none] :=
  exchange_error_propagates revoked_env fallback_state ["scope/.default"]
    none none false fallback_cache alice alice_refresh []
    "AADSTS70008 refresh token revoked" rfl rfl (by decide) (by decide)
    (by decide) rfl

/-- The observable outcome of `get_token` (result and effect trace) depends
on the credential state only through the selectors and the cache slot
selected by the CAE flag. -/
theorem get_token_selected_only (env : Env) (st₁ st₂ : CredState)
    (scopes : List String) (claims tid : Option String) (cae : Bool)
    (hu : st₁.username = st₂.username)
    (ht : st₁.tenant_id = st₂.tenant_id)
    (hc : select_cache st₁ cae = select_cache st₂ cae) :
    (get_token env st₁ scopes claims tid cae).1 =
      (get_token env st₂ scopes claims tid cae).1 ∧
    (get_token env st₁ scopes claims tid cae).2.2 =
      (get_token env st₂ scopes claims tid cae).2.2 := by
  cases hscope : scopes.isEmpty with
  | true =>
      rw [get_token_empty env st₁ scopes claims tid cae hscope,
        get_token_empty env st₂ scopes claims tid cae hscope]
      exact ⟨rfl, rfl⟩
  | false =>
      rw [get_token_eq env st₁ scopes claims tid cae hscope,
        get_token_eq env st₂ scopes claims tid cae hscope]
      unfold loaded_cache
      rw [hu, ht, hc]
      exact ⟨rfl, rfl⟩

/-- C5: the cache instance consulted is selected deterministically by the
CAE flag (`select_cache`), and the call's result and effect trace are
invariant under arbitrary replacement of the non-selected cache slot —
so a token present only in the other cache is invisible to the call. -/
theorem single_cache_per_call (env : Env) (st : CredState)
    (scopes : List String) (claims tid : Option String)
    (c c' : Option TokenCache) :
    select_cache st true = st.cae_cache ∧
    select_cache st false = st.cache ∧
    ((get_token env { st with cache := c } scopes claims tid true).1 =
        (get_token env { st with cache := c' } scopes claims tid true).1 ∧
      (get_token env { st with cache := c } scopes claims tid true).2.2 =
        (get_token env { st with cache := c' } scopes claims tid
          true).2.2) ∧
    ((get_token env { st with cae_cache := c } scopes claims tid
          false).1 =
        (get_token env { st with cae_cache := c' } scopes claims tid
          false).1 ∧
      (get_token env { st with cae_cache := c } scopes claims tid
          false).2.2 =
        (get_token env { st with cae_cache := c' } scopes claims tid
          false).2.2) :=
  ⟨rfl, rfl,
   get_token_selected_only env _ _ scopes claims tid true rfl rfl rfl,
   get_token_selected_only env _ _ scopes claims tid false rfl rfl rfl⟩

/-- C9: `get_token` never mutates cache contents: the selector
configuration is unchanged, any cache slot that held a loaded cache before
the call holds that same cache after it (on every path: success,
InvalidArgument, CredentialUnavailable, exchange failure), and the
empty-scopes failure leaves the whole state untouched.  The only state
changes possible are marking the client built and storing the persistent
store's answer into a previously empty slot. -/
theorem no_cache_mutation (env : Env) (st : CredState)
    (scopes : List String) (claims tid : Option String) (cae : Bool) :
    (get_token env st scopes claims tid cae).2.1.username = st.username ∧
    (get_token env st scopes claims tid cae).2.1.tenant_id =
      st.tenant_id ∧
    (∀ c : TokenCache, st.cache = some c →
      (get_token env st scopes claims tid cae).2.1.cache = some c) ∧
    (∀ c : TokenCache, st.cae_cache = some c →
      (get_token env st scopes claims tid cae).2.1.cae_cache = some c) ∧
    (scopes = [] → (get_token env st scopes claims tid cae).2.1 = st) := by
  cases hscope : scopes.isEmpty with
  | true =>
      rw [get_token_empty env st scopes claims tid cae hscope]
      exact ⟨rfl, rfl, fun _ h => h, fun _ h => h, fun _ => rfl⟩
  | false =>
      have hne : scopes ≠ [] := by
        intro h0; rw [h0] at hscope; simp at hscope
      rw [get_token_eq env st scopes claims tid cae hscope]
      cases cae <;> cases hcr : st.client_ready <;>
        cases hcc : st.cache <;> cases hkk : st.cae_cache <;>
          simp [select_cache, set_cache, init_client, hcr, hcc, hkk, hne]

/-- Witness for C9 at concrete inputs: a loaded slot survives a successful
call, and the empty-scopes failure leaves the state untouched. -/
theorem no_cache_mutation_witness :
    (get_token sample_env sample_state ["scope/.default"] none none
        false).2.1.cache = some sample_cache ∧
    (get_token sample_env sample_state [] none none false).2.1 =
      sample_state :=
  ⟨(no_cache_mutation sample_env sample_state ["scope/.default"] none none
      false).2.2.1 sample_cache rfl,
   (no_cache_mutation sample_env sample_state [] none none
      false).2.2.2.2 rfl⟩

/-- Exchange effects of a `get_token` call carry exactly the scopes, claims
and tenant_id arguments of the call. -/
theorem exchange_effect_args (env : Env) (st : CredState)
    (scopes : List String) (claims tid : Option String) (cae : Bool)
    (s : List String) (r : String) (c t : Option String)
    (hmem : Effect.exchange s r c t ∈
      (get_token env st scopes claims tid cae).2.2) :
    s = scopes ∧ c = claims ∧ t = tid := by
  cases hscope : scopes.isEmpty with
  | true =>
      rw [get_token_empty env st scopes claims tid cae hscope] at hmem
      simp at hmem
  | false =>
      rw [get_token_eq env st scopes claims tid cae hscope] at hmem
      cases hlc : loaded_cache env st cae with
      | none =>
          cases hsel : select_cache st cae <;>
            simp [hsel, hlc] at hmem
      | some tc =>
          rcases resolve_with_cache_effects env st.username st.tenant_id
              tc scopes claims tid with hre | ⟨rt, hre⟩ <;>
            cases hsel : select_cache st cae <;>
              simp [hsel, hlc, hre] at hmem <;>
            exact ⟨hmem.1, hmem.2.2.1, hmem.2.2.2⟩

/-- C10: the public wrapper forwards `tenant_id` unchanged to the internal
credential and on to the exchange call (lines 85 and 142-144), despite the
public docstring's statement that tenant_id is ignored: every exchange
effect of a `public_get_token` call carries exactly the scopes, claims and
tenant_id given to the public method, and on the refresh-token path the
call's result is the collaborator's answer for precisely that tenant_id,
so the supplied tenant_id can affect the token obtained. -/
theorem tenant_id_forwarded_to_exchange (env : Env) (st : CredState)
    (scopes : List String) (claims tid : Option String) (cae : Bool) :
    (∀ (s : List String) (r : String) (c t : Option String),
      Effect.exchange s r c t ∈
          (public_get_token env st scopes claims tid cae).2.2 →
      s = scopes ∧ c = claims ∧ t = tid) ∧
    (∀ (tc : TokenCache) (a : Account) (rt : RefreshTokenEntry)
        (rest : List RefreshTokenEntry),
      scopes.isEmpty = false →
      loaded_cache env st cae = some tc →
      tc.accounts.filter (account_matches st.username st.tenant_id) =
          [a] →
      get_cached_access_token env.now scopes a tc = none →
      get_refresh_tokens a tc = rt :: rest →
      (public_get_token env st scopes claims tid cae).1 =
        exchange_result (env.exchange scopes rt.secret claims tid)) := by
  constructor
  · intro s r c t hmem
    exact exchange_effect_args env st scopes claims tid cae s r c t hmem
  · intro tc a rt rest hscope hlc ha hat hrt
    have hre := resolve_with_cache_fallback env st.username st.tenant_id
      tc scopes claims tid a rt rest ha hat hrt
    show (get_token env st scopes claims tid cae).1 = _
    rw [get_token_eq env st scopes claims tid cae hscope]
    cases hsel : select_cache st cae <;> simp [hlc, hre]

/-- Environment whose exchange collaborator builds the token value from
the tenant_id it receives, making forwarding observable. -/
def tenant_env : Env :=
  { now := 1000, store := fun _ => none,
    exchange := fun _ _ _ t =>
      Except.ok { token := t.getD "no-tenant", expires_on := 2000 } }

/-- Witness for C10 at a concrete input: the exchange effect carries the
tenant_id passed to the public method, and the returned token was built
from that tenant_id. -/
theorem tenant_id_forwarded_to_exchange_witness :
    (some "tenant-x" : Option String) = some "tenant-x" ∧
    (public_get_token tenant_env fallback_state ["scope/.default"] none
        (some "tenant-x") false).1 =
      Except.ok { token := "tenant-x", expires_on := 2000 } :=
  ⟨((tenant_id_forwarded_to_exchange tenant_env fallback_state
      ["scope/.default"] none (some "tenant-x") false).1
      ["scope/.default"] "refresh-1" none (some "tenant-x")
      (by decide)).2.2,
   (tenant_id_forwarded_to_exchange tenant_env fallback_state
      ["scope/.default"] none (some "tenant-x") false).2 fallback_cache
      alice alice_refresh [] rfl rfl (by decide) (by decide) (by decide)⟩
